import Mathlib

/-!
Verification of the CRUD traversal-id mapper
(`pyramid_web20/system/crud/mapper.py`): a shallow embedding of the
`Mapper` / `IdMapper` / `Base64UUIDMapper` strategy family and of the
Python builtins (`str`, `int`, `str.isdigit`) and `utils.slug` helpers
they are configured with, followed by theorems settling the claims about
path-segment / identifier translation.

Conventions of the embedding:
* Python runtime values that can appear as a domain-object attribute or
  as a translation result are the inductive `PyVal` (integers, strings,
  UUIDs as their 16-byte content, and `None`).
* Raising is modelled with `Except PyError`; the error constructors name
  the Python exception class raised.
* Strings are processed through their character lists; the model covers
  the ASCII behaviour of `str.isdigit` and `int(...)` (Unicode digit
  classes and PEP-515 underscore separators are outside every claim).
-/

/-- Python exception classes that the modelled code can raise. -/
inductive PyError : Type where
  | valueError
  | typeError
  | attributeError
deriving DecidableEq, Repr

/-- Python runtime values flowing through the mapper: the object
attribute types used by the two shipped variants (`int` for `IdMapper`,
`uuid.UUID` for `Base64UUIDMapper`), URL path segments (`str`), and
`None`.  A UUID is carried as its 16-byte content (`uuid.bytes`). -/
inductive PyVal : Type where
  | int (i : Int)
  | str (s : String)
  | uuid (bytes : List Nat)
  | none
deriving DecidableEq, Repr

/-- The whitespace characters stripped by Python `int(str)`
(space, tab, newline, carriage return, vertical tab, form feed). -/
def isPySpace (c : Char) : Bool :=
  c = ' ' || c = '\t' || c = '\n' || c = '\r' || c = '\x0b' || c = '\x0c'

/-- Decimal digit character for a digit value `0..9`
(as produced by Python `str` on an integer). -/
def digitChar : Nat → Char
  | 0 => '0' | 1 => '1' | 2 => '2' | 3 => '3' | 4 => '4'
  | 5 => '5' | 6 => '6' | 7 => '7' | 8 => '8' | _ => '9'

/-- Base-10 digit values of `n`, least significant first, by repeated
division; the first argument is fuel bounding the recursion depth
(`n` itself always suffices). -/
def natDecRevDigits : Nat → Nat → List Nat
  | _, 0 => []
  | 0, _ => []
  | fuel + 1, n + 1 => (n + 1) % 10 :: natDecRevDigits fuel ((n + 1) / 10)

/-- Decimal rendering of a natural number, most significant digit first:
the character list of Python `str(n)` for `n >= 0`. -/
def natToDecimal (n : Nat) : List Char :=
  if n = 0 then ['0'] else ((natDecRevDigits n n).map digitChar).reverse

/-- Value of a least-significant-first digit list. -/
def decValue (L : List Nat) : Nat :=
  L.foldr (fun d acc => d + 10 * acc) 0

/-- Decimal rendering of a Python integer: `str(i)` for `int` values. -/
def intToDecimal (i : Int) : List Char :=
  if i < 0 then '-' :: natToDecimal i.natAbs else natToDecimal i.natAbs

/-- Strip leading and trailing Python whitespace from a character list,
as `int(str)` does before parsing. -/
def stripSpaces (l : List Char) : List Char :=
  ((l.dropWhile isPySpace).reverse.dropWhile isPySpace).reverse

/-- Numeric value of a digit string, most significant digit first. -/
def parseDigitList (l : List Char) : Nat :=
  l.foldl (fun a c => 10 * a + (c.toNat - 48)) 0

/-- Parse a non-empty all-digit character list; `none` otherwise. -/
def parseDigitsPos (l : List Char) : Option Nat :=
  if l.isEmpty then Option.none
  else if l.all Char.isDigit then Option.some (parseDigitList l)
  else Option.none

/-- Sign handling of Python `int(s)` after whitespace stripping: one
optional sign, then a non-empty run of digits; anything else is `none`
(raising `ValueError`).  (ASCII model: Unicode digit classes and
underscore separators do not occur in any claim.) -/
def pyIntSigned : List Char → Option Int
  | [] => Option.none
  | c :: rest =>
    if c = '+' then (parseDigitsPos rest).map Int.ofNat
    else if c = '-' then (parseDigitsPos rest).map (fun n => -(Int.ofNat n))
    else (parseDigitsPos (c :: rest)).map Int.ofNat

/-- Python `int(s)` on a string: strip whitespace then parse an
optionally signed digit run. -/
def pyIntParseChars (l : List Char) : Option Int :=
  pyIntSigned (stripSpaces l)

/-- Hexadecimal digit character for a value `0..15`. -/
def hexChar : Nat → Char
  | 0 => '0' | 1 => '1' | 2 => '2' | 3 => '3' | 4 => '4'
  | 5 => '5' | 6 => '6' | 7 => '7' | 8 => '8' | 9 => '9'
  | 10 => 'a' | 11 => 'b' | 12 => 'c' | 13 => 'd' | 14 => 'e' | _ => 'f'

/-- Two-character hexadecimal rendering of one byte. -/
def byteHex (b : Nat) : List Char :=
  [hexChar (b / 16 % 16), hexChar (b % 16)]

/-- Canonical hyphenated rendering of a UUID from its 16 bytes, as
Python `str(uuid.UUID(...))`: hex groups of 8-4-4-4-12 characters. -/
def uuidCanonical (bytes : List Nat) : List Char :=
  let h := bytes.flatMap byteHex
  h.take 8 ++ '-' :: ((h.drop 8).take 4 ++ '-' ::
    ((h.drop 12).take 4 ++ '-' :: ((h.drop 16).take 4 ++ '-' :: h.drop 20)))

/-- Python builtin `str` as a `PyVal` transformation: decimal rendering
for integers, identity on strings, canonical form for UUIDs, the word
None for `None`.  `str` never raises on these values. -/
def pyStr : PyVal → Except PyError PyVal
  | PyVal.int i => Except.ok (PyVal.str ⟨intToDecimal i⟩)
  | PyVal.str s => Except.ok (PyVal.str s)
  | PyVal.uuid b => Except.ok (PyVal.str ⟨uuidCanonical b⟩)
  | PyVal.none => Except.ok (PyVal.str "None")

/-- Python builtin `int` as a `PyVal` transformation: identity on
integers, string parsing with `ValueError` on malformed input,
`TypeError` on a UUID or `None` argument. -/
def pyInt : PyVal → Except PyError PyVal
  | PyVal.int i => Except.ok (PyVal.int i)
  | PyVal.str s =>
    match pyIntParseChars s.data with
    | Option.some i => Except.ok (PyVal.int i)
    | Option.none => Except.error PyError.valueError
  | PyVal.uuid _ => Except.error PyError.typeError
  | PyVal.none => Except.error PyError.typeError

/-- Python `str.isdigit`: true iff the string is non-empty and every
character is a digit (ASCII model). -/
def pyIsDigit (s : String) : Bool :=
  !s.data.isEmpty && s.data.all Char.isDigit

/-- URL-safe base64 alphabet character for a sextet value `0..63`
(`A-Z`, `a-z`, `0-9`, `-`, `_`). -/
def sextetChar (n : Nat) : Char :=
  if n < 26 then Char.ofNat (65 + n)
  else if n < 52 then Char.ofNat (97 + (n - 26))
  else if n < 62 then Char.ofNat (48 + (n - 52))
  else if n = 62 then '-' else '_'

/-- Sextet value of a URL-safe base64 alphabet character; `none` for a
character outside the alphabet. -/
def sextetVal (c : Char) : Option Nat :=
  if 'A' ≤ c && c ≤ 'Z' then Option.some (c.toNat - 65)
  else if 'a' ≤ c && c ≤ 'z' then Option.some (c.toNat - 97 + 26)
  else if '0' ≤ c && c ≤ '9' then Option.some (c.toNat - 48 + 52)
  else if c = '-' then Option.some 62
  else if c = '_' then Option.some 63
  else Option.none

/-- Unpadded URL-safe base64 encoding of a byte list (three bytes to
four characters, with two or three characters for a trailing group of
one or two bytes — the padding `=` is dropped from slugs). -/
def b64urlEncode : List Nat → List Char
  | [] => []
  | [a] => [sextetChar (a / 4), sextetChar (a % 4 * 16)]
  | [a, b] =>
    [sextetChar (a / 4), sextetChar (a % 4 * 16 + b / 16),
     sextetChar (b % 16 * 4)]
  | a :: b :: c :: rest =>
    sextetChar (a / 4) :: sextetChar (a % 4 * 16 + b / 16) ::
      sextetChar (b % 16 * 4 + c / 64) :: sextetChar (c % 64) ::
        b64urlEncode rest

/-- Unpadded URL-safe base64 decoding of a character list back to bytes;
`none` when a character is outside the alphabet or the length is
impossible (a single trailing character). -/
def b64urlDecode : List Char → Option (List Nat)
  | [] => Option.some []
  | [_] => Option.none
  | [c1, c2] => do
    let a ← sextetVal c1
    let b ← sextetVal c2
    Option.some [a * 4 + b / 16]
  | [c1, c2, c3] => do
    let a ← sextetVal c1
    let b ← sextetVal c2
    let c ← sextetVal c3
    Option.some [a * 4 + b / 16, b % 16 * 16 + c / 4]
  | c1 :: c2 :: c3 :: c4 :: rest => do
    let a ← sextetVal c1
    let b ← sextetVal c2
    let c ← sextetVal c3
    let d ← sextetVal c4
    let tail ← b64urlDecode rest
    Option.some ([a * 4 + b / 16, b % 16 * 16 + c / 4, c % 4 * 64 + d] ++ tail)

/-- Modelled from the spec: `pyramid_web20.utils.slug.uuid_to_slug` is
not under `src/`; per the spec it "serializes the attribute value into a
URL-safe token", i.e. encodes a UUID's 16 bytes as an unpadded URL-safe
base64 slug.  Applied to a non-UUID value it raises, modelled as a
`TypeError`. -/
def uuid_to_slug : PyVal → Except PyError PyVal
  | PyVal.uuid bytes => Except.ok (PyVal.str ⟨b64urlEncode bytes⟩)
  | _ => Except.error PyError.typeError

/-- Modelled from the spec: `pyramid_web20.utils.slug.slug_to_uuid` is
not under `src/`; per the spec it "parses a URL-safe token back into the
attribute's native type; fails (raises) on malformed input", i.e.
decodes an unpadded URL-safe base64 slug back to a 16-byte UUID.
Applied to a non-string value it raises, modelled as a `TypeError`. -/
def slug_to_uuid : PyVal → Except PyError PyVal
  | PyVal.str s =>
    match b64urlDecode s.data with
    | Option.some bytes =>
      if bytes.length = 16 then Except.ok (PyVal.uuid bytes)
      else Except.error PyError.valueError
    | Option.none => Except.error PyError.valueError
  | _ => Except.error PyError.typeError

/-- How the `is_id` configuration is stored on a mapper, capturing the
Python attribute semantics the source relies on:
* `staticm f`: a `staticmethod`-wrapped class attribute (as in
  `IdMapper`) or a plain function stored as an *instance* attribute (as
  installed by `__init__`); `m.is_id(s)` calls `f s`.
* `plainLambda f`: a plain one-parameter function stored as a *class*
  attribute (as in `Base64UUIDMapper`, whose `lambda x: True` is not
  `staticmethod`-wrapped).  Instance attribute access turns it into a
  bound method, so `m.is_id(s)` calls the one-parameter function with
  two arguments (the instance and `s`) and raises `TypeError`. -/
inductive PyCallable : Type where
  | staticm (f : String → Bool)
  | plainLambda (f : String → Bool)

/-- Invoke the configured `is_id` on a path segment through a mapper
instance, following the Python calling convention described on
`PyCallable`. -/
def callIsId : PyCallable → String → Except PyError Bool
  | PyCallable.staticm f, s => Except.ok (f s)
  | PyCallable.plainLambda _, _ => Except.error PyError.typeError

/-- A domain object, as far as `getattr` is concerned: its named
attributes. -/
def PyObj : Type := List (String × PyVal)

/-- Python `getattr(obj, name)`: the attribute value, or
`AttributeError` when the object lacks the attribute. -/
def pyGetattr (obj : PyObj) (name : String) : Except PyError PyVal :=
  match List.lookup name obj with
  | Option.some v => Except.ok v
  | Option.none => Except.error PyError.attributeError

/-- The strategy configuration a mapper instance carries — the four
behaviours `IdMapper.__init__` installs (class defaults unless
overridden). -/
structure Mapper : Type where
  mapping_attribute : String
  transform_to_path : PyVal → Except PyError PyVal
  transform_to_id : PyVal → Except PyError PyVal
  is_id : PyCallable

/-- Class-level configuration of `IdMapper`: attribute `id`, `str` to
paths, `int` from paths, `staticmethod(lambda value: value.isdigit())`. -/
def IdMapper.defaults : Mapper :=
  { mapping_attribute := "id"
    transform_to_path := pyStr
    transform_to_id := pyInt
    is_id := PyCallable.staticm pyIsDigit }

/-- Class-level configuration of `Base64UUIDMapper`, exactly as the
source assigns it: attribute `uuid`, `transform_to_id :=
slug.uuid_to_slug`, `transform_to_path := slug.slug_to_uuid`, and the
plain (not `staticmethod`-wrapped) class-level `lambda x: True` for
`is_id`. -/
def Base64UUIDMapper.defaults : Mapper :=
  { mapping_attribute := "uuid"
    transform_to_path := slug_to_uuid
    transform_to_id := uuid_to_slug
    is_id := PyCallable.plainLambda (fun _ => true) }

/-- `IdMapper.__init__(mapping_attribute=None, transform_to_path=None,
transform_to_id=None, is_id=None)` over class defaults `d`: each
argument is tested for *truthiness* (`if mapping_attribute:` etc.), so a
falsy argument — `None`, or the empty string for `mapping_attribute` —
leaves the class default in place.  A function argument is always
truthy; installing one stores it as an instance attribute, hence
`staticm` calling semantics for an installed `is_id`. -/
def mapperInit (d : Mapper) (ma : Option String)
    (ttp : Option (PyVal → Except PyError PyVal))
    (tti : Option (PyVal → Except PyError PyVal))
    (iid : Option (String → Bool)) : Mapper :=
  { mapping_attribute :=
      match ma with
      | Option.some s => if s.data.isEmpty then d.mapping_attribute else s
      | Option.none => d.mapping_attribute
    transform_to_path :=
      match ttp with
      | Option.some f => f
      | Option.none => d.transform_to_path
    transform_to_id :=
      match tti with
      | Option.some f => f
      | Option.none => d.transform_to_id
    is_id :=
      match iid with
      | Option.some f => PyCallable.staticm f
      | Option.none => d.is_id }

/-- A default-constructed `IdMapper()`. -/
def idMapper : Mapper :=
  mapperInit IdMapper.defaults Option.none Option.none Option.none Option.none

/-- A default-constructed `Base64UUIDMapper()`. -/
def base64Mapper : Mapper :=
  mapperInit Base64UUIDMapper.defaults Option.none Option.none Option.none
    Option.none

/-- `IdMapper.get_path_from_object(self, obj)`:
`return self.transform_to_path(getattr(obj, self.mapping_attribute))`. -/
def Mapper.get_path_from_object (m : Mapper) (obj : PyObj) :
    Except PyError PyVal :=
  match pyGetattr obj m.mapping_attribute with
  | Except.ok v => m.transform_to_path v
  | Except.error e => Except.error e

/-- `IdMapper.get_id_from_path(self, path)`:
`return self.transform_to_id(path)`. -/
def Mapper.get_id_from_path (m : Mapper) (path : String) :
    Except PyError PyVal :=
  m.transform_to_id (PyVal.str path)

/-- `m.is_id(path)` invoked on a mapper instance. -/
def Mapper.is_id_call (m : Mapper) (path : String) : Except PyError Bool :=
  callIsId m.is_id path

/-- State-passing form of `get_path_from_object`: the method body is a
single `return` with no assignment to `self`, so the post-state is the
receiver unchanged. -/
def Mapper.get_path_from_objectS (m : Mapper) (obj : PyObj) :
    Except PyError PyVal × Mapper :=
  (m.get_path_from_object obj, m)

/-- State-passing form of `get_id_from_path` (no assignment to `self`). -/
def Mapper.get_id_from_pathS (m : Mapper) (path : String) :
    Except PyError PyVal × Mapper :=
  (m.get_id_from_path path, m)

/-- State-passing form of an `is_id` invocation (no assignment to
`self`). -/
def Mapper.is_idS (m : Mapper) (path : String) :
    Except PyError Bool × Mapper :=
  (m.is_id_call path, m)

/-! ### Helper lemmas about decimal rendering and parsing -/

lemma toNat_digitChar {d : Nat} (h : d < 10) : (digitChar d).toNat = 48 + d := by
  interval_cases d <;> rfl

lemma isDigit_digitChar {d : Nat} (h : d < 10) : (digitChar d).isDigit = true := by
  interval_cases d <;> rfl

lemma isPySpace_digitChar {d : Nat} (h : d < 10) : isPySpace (digitChar d) = false := by
  interval_cases d <;> rfl

lemma isPySpace_eq_false_of_isDigit {c : Char} (h : c.isDigit = true) :
    isPySpace c = false := by
  cases hc : isPySpace c
  · rfl
  · exfalso
    unfold isPySpace at hc
    simp only [Bool.or_eq_true, decide_eq_true_eq] at hc
    rcases hc with ((((h1 | h1) | h1) | h1) | h1) | h1 <;> subst h1 <;>
      exact absurd h (by decide)

lemma ne_plus_of_isDigit {c : Char} (h : c.isDigit = true) : c ≠ '+' := by
  intro h1; subst h1; exact absurd h (by decide)

lemma ne_minus_of_isDigit {c : Char} (h : c.isDigit = true) : c ≠ '-' := by
  intro h1; subst h1; exact absurd h (by decide)

lemma natDecRevDigits_lt (fuel n : Nat) : ∀ d ∈ natDecRevDigits fuel n, d < 10 := by
  induction fuel generalizing n with
  | zero => cases n <;> simp [natDecRevDigits]
  | succ fuel ih =>
    cases n with
    | zero => simp [natDecRevDigits]
    | succ m =>
      simp only [natDecRevDigits, List.mem_cons]
      rintro d (rfl | hd)
      · exact Nat.mod_lt _ (by norm_num)
      · exact ih _ d hd

lemma decValue_natDecRevDigits {fuel n : Nat} (h : n ≤ fuel) :
    decValue (natDecRevDigits fuel n) = n := by
  induction fuel generalizing n with
  | zero =>
    interval_cases n
    simp [natDecRevDigits, decValue]
  | succ fuel ih =>
    cases n with
    | zero => simp [natDecRevDigits, decValue]
    | succ m =>
      have hdiv : (m + 1) / 10 ≤ fuel := by
        have := Nat.div_lt_self (Nat.succ_pos m) (by norm_num : 1 < 10)
        omega
      simp only [natDecRevDigits, decValue, List.foldr_cons]
      have := ih hdiv
      unfold decValue at this
      rw [this]
      omega

lemma natDecRevDigits_ne_nil {n : Nat} (h : n ≠ 0) :
    natDecRevDigits n n ≠ [] := by
  cases n with
  | zero => exact absurd rfl h
  | succ m => simp [natDecRevDigits]

lemma dropWhile_eq_self_of {p : Char → Bool} {l : List Char}
    (h : ∀ c ∈ l, p c = false) : l.dropWhile p = l := by
  cases l with
  | nil => rfl
  | cons a l => simp [List.dropWhile_cons, h a (List.mem_cons_self a l)]

lemma stripSpaces_eq_self {l : List Char} (h : ∀ c ∈ l, isPySpace c = false) :
    stripSpaces l = l := by
  unfold stripSpaces
  rw [dropWhile_eq_self_of h, dropWhile_eq_self_of, List.reverse_reverse]
  intro c hc
  exact h c (List.mem_reverse.mp hc)

lemma foldl_parse_digits (L : List Nat) (h : ∀ d ∈ L, d < 10) (a : Nat) :
    ((L.map digitChar).reverse).foldl (fun x c => 10 * x + (c.toNat - 48)) a
      = a * 10 ^ L.length + decValue L := by
  induction L generalizing a with
  | nil => simp [decValue]
  | cons d L ih =>
    have hd : d < 10 := h d (List.mem_cons_self d L)
    have hL : ∀ x ∈ L, x < 10 := fun x hx => h x (List.mem_cons_of_mem d hx)
    simp only [List.map_cons, List.reverse_cons, List.foldl_append,
      List.foldl_cons, List.foldl_nil]
    rw [ih hL a, toNat_digitChar hd]
    simp only [decValue, List.foldr_cons, List.length_cons]
    have h48 : 48 + d - 48 = d := by omega
    rw [h48]
    ring

lemma pyIntParseChars_all_digits {l : List Char} (hne : l ≠ [])
    (hd : ∀ c ∈ l, c.isDigit = true) :
    pyIntParseChars l = Option.some (Int.ofNat (parseDigitList l)) := by
  have hns : ∀ c ∈ l, isPySpace c = false :=
    fun c hc => isPySpace_eq_false_of_isDigit (hd c hc)
  unfold pyIntParseChars
  rw [stripSpaces_eq_self hns]
  cases l with
  | nil => exact absurd rfl hne
  | cons c rest =>
    have hc : c.isDigit = true := hd c (List.mem_cons_self c rest)
    simp only [pyIntSigned]
    rw [if_neg (ne_plus_of_isDigit hc), if_neg (ne_minus_of_isDigit hc)]
    unfold parseDigitsPos
    rw [if_neg (by simp), if_pos]
    · rfl
    · exact List.all_eq_true.mpr hd

lemma parse_natToDecimal (n : Nat) :
    pyIntParseChars (natToDecimal n) = Option.some (Int.ofNat n) := by
  by_cases h : n = 0
  · subst h; rfl
  · have hlt := natDecRevDigits_lt n n
    have hdig : ∀ c ∈ natToDecimal n, c.isDigit = true := by
      intro c hc
      unfold natToDecimal at hc
      rw [if_neg h] at hc
      rw [List.mem_reverse, List.mem_map] at hc
      obtain ⟨d, hd, rfl⟩ := hc
      exact isDigit_digitChar (hlt d hd)
    have hne : natToDecimal n ≠ [] := by
      unfold natToDecimal
      rw [if_neg h]
      simp [natDecRevDigits_ne_nil h]
    rw [pyIntParseChars_all_digits hne hdig]
    have hval : parseDigitList (natToDecimal n) = n := by
      unfold natToDecimal parseDigitList
      rw [if_neg h, foldl_parse_digits _ hlt 0,
        decValue_natDecRevDigits (le_refl n)]
      simp
    rw [hval]

/-! ### Facts about the configured transformations -/

lemma intToDecimal_natCast (n : Nat) : intToDecimal (n : Int) = natToDecimal n := by
  unfold intToDecimal
  split
  next h => exact absurd h (by omega)
  next h => simp

lemma pyStr_isOk (v : PyVal) : ∃ w, pyStr v = Except.ok w := by
  cases v <;> exact ⟨_, rfl⟩

lemma slug_to_uuid_ne_attrError (v : PyVal) :
    slug_to_uuid v ≠ Except.error PyError.attributeError := by
  cases v with
  | str s =>
    unfold slug_to_uuid
    cases hb : b64urlDecode s.data with
    | none => simp [hb]
    | some bytes => by_cases hl : bytes.length = 16 <;> simp [hb, hl]
  | int i => simp [slug_to_uuid]
  | uuid b => simp [slug_to_uuid]
  | none => simp [slug_to_uuid]

/-! ### Claim theorems -/

/-- C1: the claim says `Base64UUIDMapper.transform_to_path` serializes
the UUID attribute into a URL-safe base64 slug and the round trip
reproduces the UUID.  The source assigns the two slug helpers the wrong
way around (`transform_to_path := slug.slug_to_uuid`, a parser of slug
strings), so `get_path_from_object` on an object whose `uuid` attribute
holds any UUID value raises a type error instead of producing a slug,
and the claimed round trip never gets off the ground. -/
theorem Base64UUIDMapper_get_path_from_object_raises : ∀ (u : List Nat) (obj : PyObj),
    List.lookup "uuid" obj = Option.some (PyVal.uuid u) →
    Mapper.get_path_from_object base64Mapper obj = Except.error PyError.typeError := by
  intro u obj h
  have h1 : Mapper.get_path_from_object base64Mapper obj
      = (match pyGetattr obj "uuid" with
         | Except.ok v => slug_to_uuid v
         | Except.error e => Except.error e) := rfl
  rw [h1]
  unfold pyGetattr
  rw [h]
  rfl

/-- Witness for C1 at a concrete 16-byte UUID value. -/
theorem Base64UUIDMapper_get_path_from_object_raises_witness :
    Mapper.get_path_from_object base64Mapper
        [("uuid", PyVal.uuid [1, 2, 3, 250, 251, 252, 0, 17, 34, 51, 68, 85, 102, 119, 136, 153])]
      = Except.error PyError.typeError :=
  Base64UUIDMapper_get_path_from_object_raises
    [1, 2, 3, 250, 251, 252, 0, 17, 34, 51, 68, 85, 102, 119, 136, 153] _ rfl

/-- C2: for the default integer-id (`IdMapper`) variant, for every
non-negative integer `n`, mapping an object whose `id` attribute is `n`
to a path and parsing that path back yields `n`:
`transform_to_id (transform_to_path n) = n` (i.e. `int(str(n)) = n`). -/
theorem IdMapper_roundtrip : ∀ (n : Nat) (obj : PyObj),
    List.lookup "id" obj = Option.some (PyVal.int (n : Int)) →
    ∃ p : String,
      Mapper.get_path_from_object idMapper obj = Except.ok (PyVal.str p)
      ∧ Mapper.get_id_from_path idMapper p = Except.ok (PyVal.int (n : Int)) := by
  intro n obj h
  refine ⟨⟨natToDecimal n⟩, ?_, ?_⟩
  · have h1 : Mapper.get_path_from_object idMapper obj
        = (match pyGetattr obj "id" with
           | Except.ok v => pyStr v
           | Except.error e => Except.error e) := rfl
    rw [h1]
    unfold pyGetattr
    rw [h]
    show pyStr (PyVal.int (n : Int)) = _
    rw [show pyStr (PyVal.int (n : Int))
        = Except.ok (PyVal.str ⟨intToDecimal (n : Int)⟩) from rfl]
    rw [intToDecimal_natCast]
  · have h2 : Mapper.get_id_from_path idMapper ⟨natToDecimal n⟩
        = (match pyIntParseChars (natToDecimal n) with
           | Option.some i => Except.ok (PyVal.int i)
           | Option.none => Except.error PyError.valueError) := rfl
    rw [h2, parse_natToDecimal n]
    rfl

/-- Witness for C2 at `n = 42`. -/
theorem IdMapper_roundtrip_witness :
    ∃ p : String,
      Mapper.get_path_from_object idMapper [("id", PyVal.int ((42 : Nat) : Int))]
        = Except.ok (PyVal.str p)
      ∧ Mapper.get_id_from_path idMapper p = Except.ok (PyVal.int ((42 : Nat) : Int)) :=
  IdMapper_roundtrip 42 [("id", PyVal.int ((42 : Nat) : Int))] rfl

/-- C3: the claim says `is_id` is total and never raises on a mapper
instance, and returns true for every string on the opaque-token variant.
On a default `Base64UUIDMapper` instance the class-level
`lambda x: True` is not `staticmethod`-wrapped, so the instance call
binds the instance as the lambda's only parameter and raises `TypeError`
for every input — contradicting the claim (the integer variant's
staticmethod-wrapped `is_id` is indeed total, second conjunct). -/
theorem Base64UUIDMapper_is_id_raises :
    (∀ s : String, Mapper.is_id_call base64Mapper s = Except.error PyError.typeError)
    ∧ (∀ s : String, Mapper.is_id_call idMapper s = Except.ok (pyIsDigit s)) :=
  ⟨fun _ => rfl, fun _ => rfl⟩

/-- C4: for the default integer-id variant, `is_id(segment)` is true iff
the segment is a non-empty run of digit characters; in particular
`is_id "123" = True`, `is_id "abc" = False`, and `is_id "" = False`
without raising on the empty string. -/
theorem IdMapper_is_id_digit_spec :
    (∀ s : String,
      (Mapper.is_id_call idMapper s = Except.ok true
        ↔ s.data ≠ [] ∧ ∀ c ∈ s.data, c.isDigit = true))
    ∧ Mapper.is_id_call idMapper "123" = Except.ok true
    ∧ Mapper.is_id_call idMapper "abc" = Except.ok false
    ∧ Mapper.is_id_call idMapper "" = Except.ok false := by
  refine ⟨fun s => ?_, rfl, rfl, rfl⟩
  have h1 : Mapper.is_id_call idMapper s = Except.ok (pyIsDigit s) := rfl
  rw [h1]
  cases hd : s.data with
  | nil => simp [pyIsDigit, hd]
  | cons c cs => simp [pyIsDigit, hd, List.all_eq_true]

/-- C5: `get_id_from_path` delegates to `transform_to_id` and the
integer variant raises a parse (`ValueError`) error on `"abc"` as
claimed; but on the opaque-token variant — whose `transform_to_id` the
source sets to the serializer `slug.uuid_to_slug` instead of the parser
— `get_id_from_path` raises a type error even on a segment that *is* a
valid slug encoding (third conjunct shows the intended parser accepts
that very segment), contradicting "raises exactly when the segment is
not a valid encoding". -/
theorem get_id_from_path_delegation_and_errors :
    (∀ s : String, Mapper.get_id_from_path idMapper s = pyInt (PyVal.str s))
    ∧ Mapper.get_id_from_path idMapper "abc" = Except.error PyError.valueError
    ∧ slug_to_uuid (PyVal.str "AAAAAAAAAAAAAAAAAAAAAA")
        = Except.ok (PyVal.uuid [0, 0, 0, 0, 0, 0, 0, 0, 0, 0, 0, 0, 0, 0, 0, 0])
    ∧ Mapper.get_id_from_path base64Mapper "AAAAAAAAAAAAAAAAAAAAAA"
        = Except.error PyError.typeError :=
  ⟨fun _ => rfl, rfl, rfl, rfl⟩

/-- C6: for every mapper configuration and domain object,
`get_path_from_object` raises `AttributeError` when the object lacks the
configured attribute, returns `transform_to_path` of the attribute value
when it is present, and for both shipped variants an attribute-access
error occurs *exactly* when the attribute is missing. -/
theorem get_path_from_object_attribute_errors : ∀ (m : Mapper) (obj : PyObj),
    (List.lookup m.mapping_attribute obj = Option.none →
      m.get_path_from_object obj = Except.error PyError.attributeError)
    ∧ (∀ v, List.lookup m.mapping_attribute obj = Option.some v →
      m.get_path_from_object obj = m.transform_to_path v)
    ∧ (Mapper.get_path_from_object idMapper obj = Except.error PyError.attributeError
        ↔ List.lookup "id" obj = Option.none)
    ∧ (Mapper.get_path_from_object base64Mapper obj = Except.error PyError.attributeError
        ↔ List.lookup "uuid" obj = Option.none) := by
  intro m obj
  have hgen : ∀ (mm : Mapper), mm.get_path_from_object obj
      = (match List.lookup mm.mapping_attribute obj with
         | Option.some v => mm.transform_to_path v
         | Option.none => Except.error PyError.attributeError) := by
    intro mm
    have h1 : mm.get_path_from_object obj
        = (match pyGetattr obj mm.mapping_attribute with
           | Except.ok v => mm.transform_to_path v
           | Except.error e => Except.error e) := rfl
    rw [h1]
    unfold pyGetattr
    cases List.lookup mm.mapping_attribute obj <;> rfl
  refine ⟨?_, ?_, ?_, ?_⟩
  · intro hn
    rw [hgen m, hn]
  · intro v hv
    rw [hgen m, hv]
  · rw [hgen idMapper, show idMapper.mapping_attribute = "id" from rfl]
    cases hx : List.lookup "id" obj with
    | none => simp
    | some v =>
      obtain ⟨w, hw⟩ := pyStr_isOk v
      show pyStr v = Except.error PyError.attributeError ↔ Option.some v = Option.none
      rw [hw]
      simp
  · rw [hgen base64Mapper, show base64Mapper.mapping_attribute = "uuid" from rfl]
    cases hx : List.lookup "uuid" obj with
    | none => simp
    | some v =>
      show slug_to_uuid v = Except.error PyError.attributeError ↔ Option.some v = Option.none
      simp [slug_to_uuid_ne_attrError v]

/-- Witness for C6: missing attribute raises, present attribute is
transformed. -/
theorem get_path_from_object_attribute_errors_witness :
    Mapper.get_path_from_object idMapper [] = Except.error PyError.attributeError
    ∧ Mapper.get_path_from_object idMapper [("id", PyVal.int 3)]
        = Mapper.transform_to_path idMapper (PyVal.int 3) :=
  ⟨(get_path_from_object_attribute_errors idMapper []).1 rfl,
   (get_path_from_object_attribute_errors idMapper [("id", PyVal.int 3)]).2.1
     (PyVal.int 3) rfl⟩

/-- C7: the constructor accepts optional overrides for all four
behaviours, defaults to the class-level configuration when nothing is
supplied (first conjunct: all-`None` construction is the class
configuration), and a supplied override replaces the default uniformly —
in particular `mapping_attribute="external_ref"` makes
`get_path_from_object` read the `external_ref` attribute. -/
theorem mapperInit_overrides : ∀ (d : Mapper) (ma : Option String)
    (f g : Option (PyVal → Except PyError PyVal)) (hI : Option (String → Bool))
    (obj : PyObj) (v : PyVal),
    mapperInit d Option.none Option.none Option.none Option.none = d
    ∧ (mapperInit d (Option.some "external_ref") f g hI).mapping_attribute = "external_ref"
    ∧ (List.lookup "external_ref" obj = Option.some v →
        (mapperInit d (Option.some "external_ref") f g hI).get_path_from_object obj
          = (mapperInit d (Option.some "external_ref") f g hI).transform_to_path v)
    ∧ (∀ fn, (mapperInit d ma (Option.some fn) g hI).transform_to_path = fn)
    ∧ (∀ fn, (mapperInit d ma f (Option.some fn) hI).transform_to_id = fn)
    ∧ (∀ fn, (mapperInit d ma f g (Option.some fn)).is_id = PyCallable.staticm fn) := by
  intro d ma f g hI obj v
  refine ⟨rfl, rfl, ?_, fun fn => rfl, fun fn => rfl, fun fn => rfl⟩
  intro hv
  have h1 : (mapperInit d (Option.some "external_ref") f g hI).get_path_from_object obj
      = (match List.lookup "external_ref" obj with
         | Option.some w => (mapperInit d (Option.some "external_ref") f g hI).transform_to_path w
         | Option.none => Except.error PyError.attributeError) := by
    have h2 : (mapperInit d (Option.some "external_ref") f g hI).get_path_from_object obj
        = (match pyGetattr obj "external_ref" with
           | Except.ok w => (mapperInit d (Option.some "external_ref") f g hI).transform_to_path w
           | Except.error e => Except.error e) := rfl
    rw [h2]
    unfold pyGetattr
    cases List.lookup "external_ref" obj <;> rfl
  rw [h1, hv]

/-- Witness for C7: a mapper built over the `IdMapper` defaults with
`mapping_attribute="external_ref"` reads `external_ref`. -/
theorem mapperInit_overrides_witness :
    mapperInit IdMapper.defaults Option.none Option.none Option.none Option.none
      = IdMapper.defaults
    ∧ (mapperInit IdMapper.defaults (Option.some "external_ref") Option.none Option.none
        Option.none).get_path_from_object [("external_ref", PyVal.int 9)]
      = (mapperInit IdMapper.defaults (Option.some "external_ref") Option.none Option.none
        Option.none).transform_to_path (PyVal.int 9) :=
  ⟨(mapperInit_overrides IdMapper.defaults Option.none Option.none Option.none Option.none
      [] PyVal.none).1,
   (mapperInit_overrides IdMapper.defaults Option.none Option.none Option.none Option.none
      [("external_ref", PyVal.int 9)] (PyVal.int 9)).2.2.1 rfl⟩

/-- C8: every mapper operation leaves the mapper's configuration
unchanged (the state-passing forms return the receiver as the
post-state) and is deterministic: equal receivers and equal inputs give
equal results. -/
theorem mapper_operations_stateless : ∀ (m : Mapper) (obj : PyObj) (p s : String),
    (m.get_path_from_objectS obj).2 = m
    ∧ (m.get_id_from_pathS p).2 = m
    ∧ (m.is_idS s).2 = m
    ∧ (∀ m2 obj2, m2 = m → obj2 = obj →
        m2.get_path_from_objectS obj2 = m.get_path_from_objectS obj)
    ∧ (∀ m2 p2, m2 = m → p2 = p → m2.get_id_from_pathS p2 = m.get_id_from_pathS p)
    ∧ (∀ m2 s2, m2 = m → s2 = s → m2.is_idS s2 = m.is_idS s) :=
  fun m obj p s =>
    ⟨rfl, rfl, rfl,
     fun _ _ h1 h2 => by rw [h1, h2],
     fun _ _ h1 h2 => by rw [h1, h2],
     fun _ _ h1 h2 => by rw [h1, h2]⟩

/-- Witness for C8 on the default `IdMapper` instance. -/
theorem mapper_operations_stateless_witness :
    (Mapper.get_path_from_objectS idMapper []).2 = idMapper
    ∧ Mapper.get_id_from_pathS idMapper "7" = Mapper.get_id_from_pathS idMapper "7" :=
  ⟨(mapper_operations_stateless idMapper [] "7" "x").1,
   (mapper_operations_stateless idMapper [] "7" "x").2.2.2.2.1 idMapper "7" rfl rfl⟩

/-- C9: the constructor tests each override for truthiness, not for
presence: a falsy override — the empty string for `mapping_attribute`,
or an explicit `None` for any of the four behaviours — leaves the
class-level default in effect. -/
theorem mapperInit_falsy_overrides_ignored : ∀ (d : Mapper) (ma : Option String)
    (f g : Option (PyVal → Except PyError PyVal)) (hI : Option (String → Bool)),
    (mapperInit d (Option.some "") f g hI).mapping_attribute = d.mapping_attribute
    ∧ (mapperInit d Option.none f g hI).mapping_attribute = d.mapping_attribute
    ∧ (mapperInit d ma Option.none g hI).transform_to_path = d.transform_to_path
    ∧ (mapperInit d ma f Option.none hI).transform_to_id = d.transform_to_id
    ∧ (mapperInit d ma f g Option.none).is_id = d.is_id :=
  fun _ _ _ _ _ => ⟨rfl, rfl, rfl, rfl, rfl⟩

/-- C10: on the integer variant `is_id` being false does not imply that
`get_id_from_path` fails: `"+5"` and `" 42"` contain non-digit
characters (so `is_id` is false) yet parse successfully, because
Python's `int` accepts signs and surrounding whitespace that the digit
heuristic rejects. -/
theorem is_id_false_but_parse_succeeds :
    Mapper.is_id_call idMapper "+5" = Except.ok false
    ∧ Mapper.get_id_from_path idMapper "+5" = Except.ok (PyVal.int 5)
    ∧ Mapper.is_id_call idMapper " 42" = Except.ok false
    ∧ Mapper.get_id_from_path idMapper " 42" = Except.ok (PyVal.int 42) :=
  ⟨rfl, rfl, rfl, rfl⟩
